import Mathlib

/-!
Verification of the messaging / connection / notification core of the
Global_Connect application, as a shallow embedding in Lean 4.

User ids are modelled as `Nat` (opaque identifiers that only get compared
for equality, exactly how the JavaScript code compares `ObjectId.toString()`
values).  Timestamps are modelled as `Nat` values passed in explicitly where
the JavaScript code calls `new Date()`.  The persisted message collection is
modelled as a `List Message` (the flat message log), and MongoDB query
operators (`find`, `updateMany`, `sort`, `skip`, `limit`) are modelled by the
corresponding pure list operations.
-/

set_option autoImplicit false

/-- One entry of the `reactions` array of `messageSchema`
(`{userId, emoji, createdAt}`). -/
structure Reaction where
  userId : Nat
  emoji : String
  createdAt : Nat
deriving DecidableEq, Repr

/-- A document of the `Message` collection (`server/models/Message.js`).
`deletedBy` keeps only the user ids of its entries; the per-entry
`deletedAt` timestamps are irrelevant to every query in the source, which
matches entries by `userId` alone. -/
structure Message where
  senderId : Nat
  receiverId : Nat
  content : String
  messageType : String
  mediaUrl : Option String
  isRead : Bool
  readAt : Option Nat
  isDeleted : Bool
  deletedAt : Option Nat
  deletedBy : List Nat
  replyTo : Option Nat
  reactions : List Reaction
  createdAt : Nat
deriving DecidableEq, Repr

/-- The `$or` clause of `getConversation`: the message is between the two
given users, in either direction. -/
def betweenPair (user1Id user2Id : Nat) (m : Message) : Bool :=
  (m.senderId == user1Id && m.receiverId == user2Id) ||
  (m.senderId == user2Id && m.receiverId == user1Id)

/-- Insertion step for `.sort (createdAt : -1)`: insert a message into a
list that is already sorted by `createdAt` descending. -/
def insertByCreatedDesc (m : Message) : List Message → List Message
  | [] => [m]
  | x :: xs =>
    if x.createdAt ≤ m.createdAt then m :: x :: xs
    else x :: insertByCreatedDesc m xs

/-- `.sort (createdAt : -1)` of the message store, modelled as insertion
sort by `createdAt` descending. -/
def sortByCreatedDesc : List Message → List Message
  | [] => []
  | x :: xs => insertByCreatedDesc x (sortByCreatedDesc xs)

/-- `messageSchema.statics.getConversation(user1Id, user2Id, limit, skip)`:
`find` on the pair with `isDeleted: false`, sorted newest-first, then
`skip`/`limit`.  The `populate`/`lean` calls only decorate the returned
documents and are omitted. -/
def getConversation (log : List Message) (user1Id user2Id : Nat)
    (limit : Nat := 50) (skip : Nat := 0) : List Message :=
  ((sortByCreatedDesc (log.filter
      (fun m => betweenPair user1Id user2Id m && m.isDeleted == false))).drop
    skip).take limit

/-- The filter of `messageSchema.statics.markConversationAsRead`:
unread, not deleted messages sent by `user2Id` to `user1Id`. -/
def markMatches (user1Id user2Id : Nat) (m : Message) : Bool :=
  m.senderId == user2Id && m.receiverId == user1Id &&
  m.isRead == false && m.isDeleted == false

/-- `messageSchema.statics.markConversationAsRead(user1Id, user2Id)`:
`updateMany` setting `isRead: true, readAt: now` on every matching message.
Returns the updated log together with the `modifiedCount` reported by
`updateMany` (every matched message here is modified, since `isRead` flips
from `false` to `true`). -/
def markConversationAsRead (log : List Message) (user1Id user2Id : Nat)
    (now : Nat) : List Message × Nat :=
  (log.map (fun m =>
      if markMatches user1Id user2Id m then
        { m with isRead := true, readAt := some now }
      else m),
   (log.filter (markMatches user1Id user2Id)).length)

/-- `messageSchema.statics.getUnreadCount(userId)`: count of unread,
not deleted messages addressed to `userId`. -/
def getUnreadCount (log : List Message) (userId : Nat) : Nat :=
  (log.filter (fun m =>
      m.receiverId == userId && m.isRead == false && m.isDeleted == false)).length

/-- The mutation performed by `addReaction` when
`this.reactions.find(r => r.userId === userId)` hits: the *first* entry with
this `userId` gets its `emoji` and `createdAt` overwritten; the rest of the
array is untouched. -/
def updateFirstReaction (userId : Nat) (emoji : String) (now : Nat) :
    List Reaction → List Reaction
  | [] => []
  | r :: rs =>
    if r.userId == userId then { r with emoji := emoji, createdAt := now } :: rs
    else r :: updateFirstReaction userId emoji now rs

/-- `messageSchema.methods.addReaction(userId, emoji)`: replace the existing
reaction of this user if present, else push `{userId, emoji}` (with
`createdAt` defaulted to now). -/
def addReaction (m : Message) (userId : Nat) (emoji : String) (now : Nat) :
    Message :=
  if m.reactions.any (fun r => r.userId == userId) then
    { m with reactions := updateFirstReaction userId emoji now m.reactions }
  else
    { m with reactions :=
        m.reactions ++ [{ userId := userId, emoji := emoji, createdAt := now }] }

/-- `messageSchema.methods.removeReaction(userId)`: keep exactly the
reactions whose `userId` differs from the acting user. -/
def removeReaction (m : Message) (userId : Nat) : Message :=
  { m with reactions := m.reactions.filter (fun r => r.userId != userId) }

/-- The `enum` of `messageSchema.messageType`. -/
def messageTypeEnum : List String := ["text", "image", "file", "link"]

/-- The document validation `messageSchema` performs on save:
`content` is `required` (a non-empty string) with `maxlength` 2000 and
`messageType` must be in its enum.  The custom `mediaUrl` validator
(`if (this.messageType !== 'text' && !v) return false`) runs only when the
`mediaUrl` path is set — mongoose skips custom validators on `undefined`
paths, only `required` would run there, and `mediaUrl` is not `required` —
so an absent `mediaUrl` passes, and a set-but-empty string (falsy `!v`)
fails for non-text types.  A document failing this predicate is rejected
with a mongoose `ValidationError` and is never persisted. -/
def validateMessageDoc (m : Message) : Bool :=
  (1 ≤ m.content.length) && (m.content.length ≤ 2000) &&
  messageTypeEnum.contains m.messageType &&
  (match m.mediaUrl with
   | none => true
   | some v => !(m.messageType != "text" && v.isEmpty))

/-- The connection-relevant part of a `User` document
(`server/models/User.js`): `connections` holds user ids,
`connectionRequests` holds the `from` ids of pending received requests and
`sentRequests` the `to` ids of pending sent requests.  The `sentAt`
timestamps of the request entries are dropped: every query in the source
matches request entries by their `from`/`to` id alone. -/
structure UserRec where
  connections : List Nat
  connectionRequests : List Nat
  sentRequests : List Nat
deriving DecidableEq, Repr

/-- `userSchema.methods.isConnectedTo(userId)`. -/
def UserRec.isConnectedTo (u : UserRec) (userId : Nat) : Bool :=
  u.connections.any (fun id => id == userId)

/-- `userSchema.methods.hasSentRequestTo(userId)`. -/
def UserRec.hasSentRequestTo (u : UserRec) (userId : Nat) : Bool :=
  u.sentRequests.any (fun t => t == userId)

/-- `userSchema.methods.hasReceivedRequestFrom(userId)`. -/
def UserRec.hasReceivedRequestFrom (u : UserRec) (userId : Nat) : Bool :=
  u.connectionRequests.any (fun f => f == userId)

/-- The user directory: every user id maps to its stored record.  The
routes are modelled for existing, active users (the `findById` and
`isActive` checks of the handlers are lookups in this total map). -/
def UserStore := Nat → UserRec

/-- Saving one user document back into the store. -/
def storeSave (s : UserStore) (userId : Nat) (u : UserRec) : UserStore :=
  fun j => if j = userId then u else s j

/-- The HTTP outcome of a connection route: a 400 validation failure, a
200 informational no-op, or a 200 success. -/
inductive ConnectResp where
  | badRequest (msg : String)
  | info (msg : String)
  | ok (msg : String)
deriving DecidableEq, Repr

/-- `POST /api/users/connect/:id` (`server/routes/users.js`): the
self-connection guard, then the `Already connected` / `already pending` /
`already sent you` informational no-ops, else push `cur` onto the target's
`connectionRequests` and `tgt` onto the sender's `sentRequests`.  The
`ObjectId` validity and `isActive` checks are transport-level and the
notification emit does not touch either user document. -/
def sendConnectionRequest (s : UserStore) (cur tgt : Nat) :
    UserStore × ConnectResp :=
  if cur = tgt then (s, .badRequest "Cannot connect with yourself")
  else
    let me := s cur
    let other := s tgt
    if me.isConnectedTo tgt then (s, .info "Already connected")
    else if me.hasSentRequestTo tgt || other.hasReceivedRequestFrom cur then
      (s, .info "Connection request already pending")
    else if me.hasReceivedRequestFrom tgt then
      (s, .info "User has already sent you a connection request")
    else
      let s1 := storeSave s tgt
        { other with connectionRequests := other.connectionRequests ++ [cur] }
      let s2 := storeSave s1 cur
        { me with sentRequests := me.sentRequests ++ [tgt] }
      (s2, .ok "Connection request sent successfully")

/-- `action` body field of `PUT /api/users/connect/:id` (only `accept` and
`reject` pass the route's enum guard). -/
inductive ConnectAction where
  | accept
  | reject
deriving DecidableEq, Repr

/-- `findIndex` + `splice(index, 1)`: remove the first occurrence. -/
def removeFirst (x : Nat) : List Nat → List Nat
  | [] => []
  | y :: ys => if y == x then ys else y :: removeFirst x ys

/-- `PUT /api/users/connect/:id` (`server/routes/users.js`): if no pending
request from `requester` is found, answer gracefully without mutating; else
splice the request out of the receiver's `connectionRequests`, and on
`accept` additionally connect both users and filter `cur` out of the
requester's `sentRequests`.  On `reject` only the receiver's splice is
saved — the requester's `sentRequests` entry is left in place. -/
def respondToRequest (s : UserStore) (cur requester : Nat)
    (action : ConnectAction) : UserStore × ConnectResp :=
  let me := s cur
  if me.hasReceivedRequestFrom requester = false then
    if me.isConnectedTo requester then (s, .info "Already connected")
    else (s, .info "No pending connection request from this user")
  else
    let me1 := { me with
      connectionRequests := removeFirst requester me.connectionRequests }
    match action with
    | .reject => (storeSave s cur me1, .ok "Connection request rejected successfully")
    | .accept =>
      let me2 :=
        if me1.isConnectedTo requester then me1
        else { me1 with connections := me1.connections ++ [requester] }
      let ru := s requester
      let ru1 :=
        if ru.isConnectedTo cur then ru
        else { ru with connections := ru.connections ++ [cur] }
      let ru2 := { ru1 with
        sentRequests := ru1.sentRequests.filter (fun t => t != cur) }
      (storeSave (storeSave s requester ru2) cur me2,
       .ok "Connection request accepted successfully")

/-- `DELETE /api/users/connect/:id`: filter each side out of the other's
`connections` list. -/
def removeConnection (s : UserStore) (cur tgt : Nat) :
    UserStore × ConnectResp :=
  let me := { s cur with
    connections := (s cur).connections.filter (fun id => id != tgt) }
  let other := { s tgt with
    connections := (s tgt).connections.filter (fun id => id != cur) }
  (storeSave (storeSave s tgt other) cur me, .ok "Connection removed successfully")

/-- The pair (a, b) has a pending a-to-b request, exactly as the
`POST /connect` handler tests it: recorded on the sender
(`hasSentRequestTo`) or on the target (`hasReceivedRequestFrom`). -/
def pendingPair (s : UserStore) (a b : Nat) : Bool :=
  (s a).hasSentRequestTo b || (s b).hasReceivedRequestFrom a

/-- The pair (a, b) is recorded as connected on either side. -/
def connectedPair (s : UserStore) (a b : Nat) : Bool :=
  (s a).isConnectedTo b || (s b).isConnectedTo a

/-- The user store with no connections and no pending requests. -/
def emptyStore : UserStore := fun _ => ⟨[], [], []⟩

/-- The `validTypes` array of the `POST /api/notifications` handler
(`server/routes/notifications.js`). -/
def validTypes : List String :=
  ["CONNECTION_REQUEST", "CONNECTION_ACCEPTED", "MESSAGE",
   "POST_FROM_CONNECTION", "JOB_APPLICATION", "JOB_APPLICATION_UPDATE",
   "POST_LIKE", "POST_COMMENT", "POST_SHARE"]

/-- The notification-type set as the specification document enumerates it
(data-model section); written from the spec's words, to be compared with
the handler's `validTypes`. -/
def specNotificationTypes : List String :=
  ["CONNECTION_REQUEST", "CONNECTION_ACCEPTED", "MESSAGE",
   "POST_FROM_CONNECTION", "POST_LIKE", "POST_COMMENT", "POST_SHARED",
   "JOB_APPLICATION", "JOB_APPLICATION_UPDATE"]

/-- A persisted `Notification` document as the handler builds it. -/
structure NotificationDoc where
  recipientId : String
  senderId : String
  ntype : String
  title : String
  message : String
deriving DecidableEq, Repr

/-- JavaScript `!x || !x.trim()` on a string: true exactly when every
character is whitespace (`trim()` of such a string is the empty, falsy
string; the empty string is itself falsy). -/
def jsBlank (s : String) : Bool :=
  s.toList.all (fun c => c.isWhitespace)

/-- `POST /api/notifications` (`server/routes/notifications.js`): validate
`recipientId` (present string), `type` against `validTypes`, and `title` /
`message` against JavaScript `!x || !x.trim()` (missing or
whitespace-only); on any failure respond 400 and persist nothing, else save
and answer 201 with the document. -/
def createNotificationHandler (senderId : String) (recipientId : Option String)
    (ntype title message : String) : Except (Nat × String) NotificationDoc :=
  match recipientId with
  | none => .error (400, "Valid recipient ID required")
  | some rid =>
    if validTypes.contains ntype = false then
      .error (400, "Valid notification type required")
    else if jsBlank title then .error (400, "Title is required")
    else if jsBlank message then .error (400, "Message is required")
    else .ok { recipientId := rid, senderId := senderId, ntype := ntype,
               title := title, message := message }

/-- Whether an `Except` result is a success. -/
def exceptOk {ε α : Type} : Except ε α → Bool
  | .ok _ => true
  | .error _ => false

/-- A notification as the client slice stores it (`notificationSlice.js`):
only `_id`, `isRead` and `readAt` matter to the reducers. -/
structure ClientNotification where
  id : String
  isRead : Bool
  readAt : Option Nat
deriving DecidableEq, Repr

/-- The `notification` slice state: the list plus the unread counter.  The
counter is an `Int` so that "never negative" is a real property of the
reducers rather than of the type. -/
structure NotificationState where
  notifications : List ClientNotification
  unreadCount : Int
deriving DecidableEq, Repr

/-- Reducer `addNotification`: unshift the payload and increment the
counter. -/
def addNotificationReducer (s : NotificationState) (n : ClientNotification) :
    NotificationState :=
  { notifications := n :: s.notifications, unreadCount := s.unreadCount + 1 }

/-- The mutation `find` + in-place update performs: mark the first
notification with this id read. -/
def setFirstRead (nid : String) (now : Nat) :
    List ClientNotification → List ClientNotification
  | [] => []
  | n :: ns =>
    if n.id == nid then { n with isRead := true, readAt := some now } :: ns
    else n :: setFirstRead nid now ns

/-- Reducer `markNotificationAsReadLocal`: if the first notification with
this id exists and is unread, mark it read and decrement the counter,
clamped at zero (`Math.max(0, unreadCount - 1)`); otherwise no change. -/
def markNotificationAsReadLocalReducer (s : NotificationState) (nid : String)
    (now : Nat) : NotificationState :=
  match s.notifications.find? (fun n => n.id == nid) with
  | none => s
  | some n =>
    if n.isRead then s
    else { notifications := setFirstRead nid now s.notifications,
           unreadCount := max 0 (s.unreadCount - 1) }

/-- Reducer `markAllNotificationsAsReadLocal`: mark everything read and set
the counter to zero. -/
def markAllNotificationsAsReadLocalReducer (s : NotificationState)
    (now : Nat) : NotificationState :=
  { notifications := s.notifications.map
      (fun n => { n with isRead := true, readAt := some now }),
    unreadCount := 0 }

/-- Reducer `removeNotification`: decrement (clamped at zero) only when the
removed notification existed and was unread, then filter it out. -/
def removeNotificationReducer (s : NotificationState) (nid : String) :
    NotificationState :=
  { notifications := s.notifications.filter (fun n => n.id != nid),
    unreadCount :=
      match s.notifications.find? (fun n => n.id == nid) with
      | some n => if n.isRead then s.unreadCount else max 0 (s.unreadCount - 1)
      | none => s.unreadCount }

/-- `setFirstRead`-style replacement used by the `markNotificationAsRead`
fulfilled case: `state.notifications[index] = updatedNotification` at the
first index whose id matches. -/
def replaceFirstById (u : ClientNotification) :
    List ClientNotification → List ClientNotification
  | [] => []
  | n :: ns => if n.id == u.id then u :: ns else n :: replaceFirstById u ns

/-- Extra reducer for `markNotificationAsRead.fulfilled`: replace the
matching entry with the server's payload and decrement (clamped at zero)
only if the entry was unread and the payload is read. -/
def markNotificationAsReadFulfilled (s : NotificationState)
    (u : ClientNotification) : NotificationState :=
  match s.notifications.find? (fun n => n.id == u.id) with
  | none => s
  | some old =>
    { notifications := replaceFirstById u s.notifications,
      unreadCount :=
        if old.isRead = false ∧ u.isRead then max 0 (s.unreadCount - 1)
        else s.unreadCount }

/-- Extra reducer for `deleteNotification.fulfilled`: textually identical
to the `removeNotification` reducer. -/
def deleteNotificationFulfilled (s : NotificationState) (nid : String) :
    NotificationState :=
  removeNotificationReducer s nid

/-! ## Theorems -/

/-- Claim C9: sending a connection request to oneself fails with the 400
response `Cannot connect with yourself`, and the user store is returned
unchanged — the guard fires before any lookup or mutation. -/
theorem connect_self_rejected (s : UserStore) (u : Nat) :
    sendConnectionRequest s u u = (s, .badRequest "Cannot connect with yourself") := by
  simp [sendConnectionRequest]

/-- After one pass of `markConversationAsRead`, no message still matches its
filter: a matched message now has `isRead = true`, an unmatched one already
failed the filter. -/
theorem markMatches_after_mark (u1 u2 now : Nat) (m : Message) :
    markMatches u1 u2
      (if markMatches u1 u2 m then { m with isRead := true, readAt := some now }
       else m) = false := by
  by_cases h : markMatches u1 u2 m = true
  · simp only [h, if_true]
    simp [markMatches]
  · rw [if_neg h]
    simpa using h

/-- A map that fixes every element of a list is the identity on it. -/
theorem map_eq_self_of_fixed {α : Type} (f : α → α) (l : List α)
    (h : ∀ x ∈ l, f x = x) : l.map f = l := by
  induction l with
  | nil => rfl
  | cons a as ih =>
    simp only [List.map_cons]
    rw [h a (List.mem_cons_self a as), ih (fun x hx => h x (List.mem_cons_of_mem a hx))]

/-- Claim C3: `markConversationAsRead` is idempotent — a second call on the
state produced by a first call modifies zero messages (`modifiedCount = 0`)
and leaves the log exactly as the first call left it. -/
theorem markConversationAsRead_idempotent (log : List Message)
    (u1 u2 t1 t2 : Nat) :
    (markConversationAsRead (markConversationAsRead log u1 u2 t1).1 u1 u2 t2).2 = 0 ∧
    (markConversationAsRead (markConversationAsRead log u1 u2 t1).1 u1 u2 t2).1 =
      (markConversationAsRead log u1 u2 t1).1 := by
  have hall : ∀ x ∈ (markConversationAsRead log u1 u2 t1).1,
      markMatches u1 u2 x = false := by
    intro x hx
    simp only [markConversationAsRead, List.mem_map] at hx
    rcases hx with ⟨m, _, rfl⟩
    exact markMatches_after_mark u1 u2 t1 m
  constructor
  · show (((markConversationAsRead log u1 u2 t1).1).filter
        (markMatches u1 u2)).length = 0
    rw [List.length_eq_zero, List.filter_eq_nil_iff]
    intro a ha
    simp [hall a ha]
  · show (((markConversationAsRead log u1 u2 t1).1).map _) = _
    apply map_eq_self_of_fixed
    intro x hx
    rw [hall x hx]
    simp

/-- `addReaction` in terms of its two branches on the reactions list. -/
theorem addReaction_reactions (m : Message) (u : Nat) (e : String) (t : Nat) :
    (addReaction m u e t).reactions =
      if m.reactions.any (fun r => r.userId == u) then
        updateFirstReaction u e t m.reactions
      else m.reactions ++ [{ userId := u, emoji := e, createdAt := t }] := by
  unfold addReaction
  split <;> rfl

/-- If a list holds at most one reaction of user `u` and at least one
(`any`), then after `updateFirstReaction` the reactions of `u` are exactly
the overwritten entry. -/
theorem filter_updateFirstReaction_self (u : Nat) (e : String) (t : Nat)
    (l : List Reaction)
    (hlen : (l.filter (fun r => r.userId == u)).length ≤ 1)
    (hany : l.any (fun r => r.userId == u) = true) :
    (updateFirstReaction u e t l).filter (fun r => r.userId == u) =
      [{ userId := u, emoji := e, createdAt := t }] := by
  induction l with
  | nil => simp at hany
  | cons r rs ih =>
    by_cases hr : r.userId == u
    · have hu : r.userId = u := by simpa using hr
      have htail : rs.filter (fun r => r.userId == u) = [] := by
        rw [List.filter_cons_of_pos (by simpa using hr)] at hlen
        simp only [List.length_cons] at hlen
        exact List.length_eq_zero.mp (by omega)
      simp only [updateFirstReaction, hr, if_true]
      rw [List.filter_cons_of_pos (by simpa using hr), htail, hu]
    · have hr' : (r.userId == u) = false := by simpa using hr
      simp only [updateFirstReaction, hr', Bool.false_eq_true, if_false]
      rw [List.filter_cons_of_neg (by simp [hr'])]
      apply ih
      · rwa [List.filter_cons_of_neg (by simp [hr'])] at hlen
      · simpa [hr'] using hany

/-- If `u` has no reaction in the list, appending the new entry makes it the
single reaction of `u`. -/
theorem filter_append_reaction_self (u : Nat) (e : String) (t : Nat)
    (l : List Reaction)
    (hnone : l.any (fun r => r.userId == u) = false) :
    ((l ++ [({ userId := u, emoji := e, createdAt := t } : Reaction)]).filter
        (fun r => r.userId == u)) =
      [{ userId := u, emoji := e, createdAt := t }] := by
  rw [List.filter_append]
  have h1 : l.filter (fun r => r.userId == u) = [] := by
    rw [List.filter_eq_nil_iff]
    intro a ha
    have := (List.any_eq_false.mp hnone) a ha
    simpa using this
  rw [h1]
  simp

/-- Under the at-most-one-reaction-per-user invariant, one `addReaction`
leaves exactly the fresh entry as `u`'s reactions. -/
theorem addReaction_filter_self (m : Message) (u : Nat) (e : String) (t : Nat)
    (hlen : (m.reactions.filter (fun r => r.userId == u)).length ≤ 1) :
    (addReaction m u e t).reactions.filter (fun r => r.userId == u) =
      [{ userId := u, emoji := e, createdAt := t }] := by
  rw [addReaction_reactions]
  by_cases hany : m.reactions.any (fun r => r.userId == u) = true
  · rw [if_pos hany]
    exact filter_updateFirstReaction_self u e t m.reactions hlen hany
  · rw [if_neg hany]
    have hany' : m.reactions.any (fun r => r.userId == u) = false := by
      simpa using hany
    exact filter_append_reaction_self u e t m.reactions hany'

/-- Claim C4: reacting is an upsert keyed by `userId` — reacting with `e1`
and then `e2` leaves exactly one reaction entry of the user, carrying `e2`
(and the second reaction's timestamp), provided the message satisfied the
schema invariant of at most one reaction per user beforehand. -/
theorem addReaction_upsert (m : Message) (u : Nat) (e1 e2 : String)
    (t1 t2 : Nat)
    (hlen : (m.reactions.filter (fun r => r.userId == u)).length ≤ 1) :
    (addReaction (addReaction m u e1 t1) u e2 t2).reactions.filter
        (fun r => r.userId == u) =
      [{ userId := u, emoji := e2, createdAt := t2 }] := by
  apply addReaction_filter_self
  rw [addReaction_filter_self m u e1 t1 hlen]
  simp

/-- Witness for claim C4 at a concrete message with no prior reactions. -/
theorem addReaction_upsert_witness :
    ((addReaction (addReaction
        { senderId := 1, receiverId := 2, content := "hi",
          messageType := "text", mediaUrl := none, isRead := false,
          readAt := none, isDeleted := false, deletedAt := none,
          deletedBy := [], replyTo := none, reactions := [], createdAt := 7 }
        3 "thumbsup" 10) 3 "fire" 11).reactions.filter
        (fun r => r.userId == 3)) =
      [{ userId := 3, emoji := "fire", createdAt := 11 }] :=
  addReaction_upsert _ 3 "thumbsup" "fire" 10 11 (by decide)

/-- `updateFirstReaction` for user `u` does not disturb the reactions of
any other user `v`. -/
theorem filter_updateFirstReaction_other (u v : Nat) (e : String) (t : Nat)
    (l : List Reaction) (huv : u ≠ v) :
    (updateFirstReaction u e t l).filter (fun r => r.userId == v) =
      l.filter (fun r => r.userId == v) := by
  induction l with
  | nil => rfl
  | cons r rs ih =>
    by_cases hr : r.userId = u
    · have hv : (r.userId == v) = false := by simp [hr, huv]
      simp [updateFirstReaction, hr, List.filter_cons, hv, huv]
    · have hr' : (r.userId == u) = false := by simp [hr]
      by_cases hv : r.userId = v <;>
        simp [updateFirstReaction, hr', List.filter_cons, hv, ih, huv,
          Ne.symm huv]

/-- Filtering out user `u`'s reactions does not disturb the reactions of
any other user `v`. -/
theorem filter_removeReaction_other (u v : Nat) (l : List Reaction)
    (huv : u ≠ v) :
    (l.filter (fun r => r.userId != u)).filter (fun r => r.userId == v) =
      l.filter (fun r => r.userId == v) := by
  induction l with
  | nil => rfl
  | cons r rs ih =>
    by_cases hu : r.userId = u
    · have hv : (r.userId == v) = false := by simp [hu, huv]
      simp [List.filter_cons, hu, hv, ih, huv]
    · by_cases hv : r.userId = v <;>
        simp [List.filter_cons, hu, hv, bne_iff_ne, ih, huv, Ne.symm huv]

/-- Claim C8: reaction operations only touch the acting user's entries —
for `v ≠ u`, `addReaction u` and `removeReaction u` leave `v`'s reaction
entries exactly as they were and leave every non-reaction field of the
message unchanged; `removeReaction u` removes exactly the entries whose
`userId` is `u`. -/
theorem reaction_ops_frame (m : Message) (u v : Nat) (e : String) (t : Nat)
    (huv : u ≠ v) :
    ((addReaction m u e t).reactions.filter (fun r => r.userId == v) =
       m.reactions.filter (fun r => r.userId == v)) ∧
    ((removeReaction m u).reactions.filter (fun r => r.userId == v) =
       m.reactions.filter (fun r => r.userId == v)) ∧
    (addReaction m u e t).senderId = m.senderId ∧
    (addReaction m u e t).receiverId = m.receiverId ∧
    (addReaction m u e t).content = m.content ∧
    (addReaction m u e t).isRead = m.isRead ∧
    (addReaction m u e t).isDeleted = m.isDeleted ∧
    (addReaction m u e t).replyTo = m.replyTo ∧
    (removeReaction m u).senderId = m.senderId ∧
    (removeReaction m u).receiverId = m.receiverId ∧
    (removeReaction m u).content = m.content ∧
    (removeReaction m u).isRead = m.isRead ∧
    (removeReaction m u).isDeleted = m.isDeleted ∧
    (removeReaction m u).replyTo = m.replyTo ∧
    (∀ r : Reaction, r ∈ (removeReaction m u).reactions ↔
       (r ∈ m.reactions ∧ r.userId ≠ u)) := by
  refine ⟨?_, ?_, ?_, ?_, ?_, ?_, ?_, ?_, ?_, ?_, ?_, ?_, ?_, ?_, ?_⟩
  · rw [addReaction_reactions]
    by_cases hany : m.reactions.any (fun r => r.userId == u) = true
    · rw [if_pos hany]
      exact filter_updateFirstReaction_other u v e t m.reactions huv
    · rw [if_neg hany, List.filter_append]
      simp [huv]
  · exact filter_removeReaction_other u v m.reactions huv
  all_goals first
    | (unfold addReaction; split <;> rfl)
    | rfl
    | (intro r; simp [removeReaction, List.mem_filter, bne_iff_ne])

/-- Witness for claim C8: user 1 reacting on a message carrying a reaction
of user 2 leaves user 2's entries untouched. -/
theorem reaction_ops_frame_witness :
    (addReaction
        { senderId := 1, receiverId := 2, content := "yo",
          messageType := "text", mediaUrl := none, isRead := false,
          readAt := none, isDeleted := false, deletedAt := none,
          deletedBy := [], replyTo := none,
          reactions := [{ userId := 2, emoji := "heart", createdAt := 1 }],
          createdAt := 3 }
        1 "fire" 9).reactions.filter (fun r => r.userId == 2) =
      ({ senderId := 1, receiverId := 2, content := "yo",
         messageType := "text", mediaUrl := none, isRead := false,
         readAt := none, isDeleted := false, deletedAt := none,
         deletedBy := [], replyTo := none,
         reactions := [{ userId := 2, emoji := "heart", createdAt := 1 }],
         createdAt := 3 } : Message).reactions.filter
        (fun r => r.userId == 2) :=
  (reaction_ops_frame _ 1 2 "fire" 9 (by decide)).1

/-- Membership after inserting into the sorted-by-`createdAt` list. -/
theorem mem_insertByCreatedDesc (m a : Message) (l : List Message) :
    a ∈ insertByCreatedDesc m l ↔ (a = m ∨ a ∈ l) := by
  induction l with
  | nil => simp [insertByCreatedDesc]
  | cons x xs ih =>
    by_cases h : x.createdAt ≤ m.createdAt
    · simp [insertByCreatedDesc, h]
    · simp only [insertByCreatedDesc, if_neg h, List.mem_cons, ih]
      tauto

/-- Sorting by `createdAt` descending neither adds nor loses messages. -/
theorem mem_sortByCreatedDesc (a : Message) (l : List Message) :
    a ∈ sortByCreatedDesc l ↔ a ∈ l := by
  induction l with
  | nil => simp [sortByCreatedDesc]
  | cons x xs ih =>
    simp only [sortByCreatedDesc, mem_insertByCreatedDesc, List.mem_cons, ih]

/-- Insertion grows the length by one. -/
theorem length_insertByCreatedDesc (m : Message) (l : List Message) :
    (insertByCreatedDesc m l).length = l.length + 1 := by
  induction l with
  | nil => rfl
  | cons x xs ih =>
    by_cases h : x.createdAt ≤ m.createdAt
    · simp [insertByCreatedDesc, h]
    · simp [insertByCreatedDesc, h, ih]

/-- Sorting preserves the length. -/
theorem length_sortByCreatedDesc (l : List Message) :
    (sortByCreatedDesc l).length = l.length := by
  induction l with
  | nil => rfl
  | cons x xs ih => simp [sortByCreatedDesc, length_insertByCreatedDesc, ih]

/-- Counterexample to claim C1: a message between users 1 and 2 that user 1
soft-deleted (`isDeleted = true`, `deletedBy = [1]`).  The claim requires
`getConversation` fetched for user 2 to still return it, because it was
deleted by the other party only; the code's `isDeleted: false` query filter
excludes it for both parties. -/
theorem getConversation_hidden_for_both_cex :
    ¬ (({ senderId := 1, receiverId := 2, content := "hello",
          messageType := "text", mediaUrl := none, isRead := false,
          readAt := none, isDeleted := true, deletedAt := some 5,
          deletedBy := [1], replyTo := none, reactions := [],
          createdAt := 4 } : Message) ∈
        getConversation
          [{ senderId := 1, receiverId := 2, content := "hello",
             messageType := "text", mediaUrl := none, isRead := false,
             readAt := none, isDeleted := true, deletedAt := some 5,
             deletedBy := [1], replyTo := none, reactions := [],
             createdAt := 4 }] 2 1 50 0) := by
  decide

/-- Claim C1 (amended): within one page (`skip = 0`, `limit` at least the
log length), `getConversation(A, B)` returns exactly the messages between
the pair with `isDeleted = false` — a deletion by either party hides the
message from both; `deletedBy` is an audit trail, not a per-party
visibility filter. -/
theorem getConversation_mem_iff (log : List Message) (u1 u2 : Nat)
    (limit : Nat) (m : Message) (h : log.length ≤ limit) :
    m ∈ getConversation log u1 u2 limit 0 ↔
      (m ∈ log ∧ betweenPair u1 u2 m = true ∧ m.isDeleted = false) := by
  unfold getConversation
  rw [List.drop_zero]
  have hlen : (sortByCreatedDesc (log.filter
      (fun m => betweenPair u1 u2 m && m.isDeleted == false))).length ≤ limit := by
    rw [length_sortByCreatedDesc]
    exact le_trans (List.length_filter_le _ _) h
  rw [List.take_of_length_le hlen, mem_sortByCreatedDesc, List.mem_filter]
  simp

/-- Witness for the amended claim C1: a live message between the pair is
returned on the first page. -/
theorem getConversation_mem_iff_witness :
    ({ senderId := 1, receiverId := 2, content := "hello",
       messageType := "text", mediaUrl := none, isRead := false,
       readAt := none, isDeleted := false, deletedAt := none,
       deletedBy := [], replyTo := none, reactions := [],
       createdAt := 4 } : Message) ∈
      getConversation
        [{ senderId := 1, receiverId := 2, content := "hello",
           messageType := "text", mediaUrl := none, isRead := false,
           readAt := none, isDeleted := false, deletedAt := none,
           deletedBy := [], replyTo := none, reactions := [],
           createdAt := 4 }] 2 1 50 0 :=
  (getConversation_mem_iff _ 2 1 50 _ (by decide)).mpr
    ⟨by decide, by decide, by decide⟩

/-- Run of the connection routes exposing the stale-mirror bug: user 1
sends a request to user 2. -/
def bugStore1 : UserStore := (sendConnectionRequest emptyStore 1 2).1

/-- ... user 2 rejects it (the receiver's `connectionRequests` entry is
spliced out, but user 1's `sentRequests` entry is not cleared). -/
def bugStore2 : UserStore := (respondToRequest bugStore1 2 1 .reject).1

/-- ... user 2 now sends a request to user 1 (the duplicate guards pass,
since user 2 has no record of the rejected request). -/
def bugStore3 : UserStore := (sendConnectionRequest bugStore2 2 1).1

/-- ... and user 1 accepts it. -/
def bugStore4 : UserStore := (respondToRequest bugStore3 1 2 .accept).1

/-- Claim C2 is violated by the code: after `send(1→2), reject by 2,
send(2→1)` the pair is simultaneously in the 1→2-pending and 2→1-pending
states (the reject handler never removes the rejected entry from the
sender's `sentRequests`), and after user 1 then accepts, the pair is
simultaneously mutually connected and 1→2-pending — `(bugStore4 1)` still
carries the stale `sentRequests = [2]`.  The spec's invariant — at most one
of the four pair states at a time, and connecting removes any pending
request in either direction — fails on this run. -/
theorem connection_pair_state_bug :
    (bugStore2 2).connectionRequests = [] ∧
    (bugStore2 1).sentRequests = [2] ∧
    pendingPair bugStore3 1 2 = true ∧
    pendingPair bugStore3 2 1 = true ∧
    (bugStore4 1).connections = [2] ∧
    (bugStore4 2).connections = [1] ∧
    connectedPair bugStore4 1 2 = true ∧
    pendingPair bugStore4 1 2 = true ∧
    (bugStore4 1).sentRequests = [2] := by
  decide

/-- Claim C6: a duplicate connection action is a graceful, idempotent
no-op — when the pair is already connected, or a request is already
pending in the requester's own direction, or in the reverse direction
(the target already sent one to the requester), `POST /connect` answers
with an informational message and returns the store unchanged, and
`PUT /connect` with no pending request likewise answers gracefully
without mutating. -/
theorem duplicate_connection_noop (s : UserStore) (cur tgt : Nat)
    (hne : cur ≠ tgt) :
    ((s cur).isConnectedTo tgt = true →
       sendConnectionRequest s cur tgt = (s, .info "Already connected")) ∧
    ((s cur).isConnectedTo tgt = false → pendingPair s cur tgt = true →
       sendConnectionRequest s cur tgt =
         (s, .info "Connection request already pending")) ∧
    ((s cur).isConnectedTo tgt = false → pendingPair s cur tgt = false →
       (s cur).hasReceivedRequestFrom tgt = true →
       sendConnectionRequest s cur tgt =
         (s, .info "User has already sent you a connection request")) ∧
    (∀ a : ConnectAction, (s cur).hasReceivedRequestFrom tgt = false →
       (s cur).isConnectedTo tgt = true →
       respondToRequest s cur tgt a = (s, .info "Already connected")) ∧
    (∀ a : ConnectAction, (s cur).hasReceivedRequestFrom tgt = false →
       (s cur).isConnectedTo tgt = false →
       respondToRequest s cur tgt a =
         (s, .info "No pending connection request from this user")) := by
  refine ⟨?_, ?_, ?_, ?_, ?_⟩
  · intro hconn
    simp [sendConnectionRequest, hne, hconn]
  · intro hconn hpend
    unfold pendingPair at hpend
    simp [sendConnectionRequest, hne, hconn, hpend]
  · intro hconn hpend hrecv
    unfold pendingPair at hpend
    rw [Bool.or_eq_false_iff] at hpend
    simp [sendConnectionRequest, hne, hconn, hpend.1, hpend.2, hrecv]
  · intro a hnoreq hconn
    simp [respondToRequest, hnoreq, hconn]
  · intro a hnoreq hconn
    simp [respondToRequest, hnoreq, hconn]

/-- A store in which users 1 and 2 are already mutually connected. -/
def connectedStore12 : UserStore := fun j =>
  if j = 1 then ⟨[2], [], []⟩ else if j = 2 then ⟨[1], [], []⟩ else ⟨[], [], []⟩

/-- A store in which user 1 has a pending sent request to user 2. -/
def pendingStore12 : UserStore := fun j =>
  if j = 1 then ⟨[], [], [2]⟩ else if j = 2 then ⟨[], [1], []⟩ else ⟨[], [], []⟩

/-- A store in which user 2 has a pending sent request to user 1. -/
def revPendingStore12 : UserStore := fun j =>
  if j = 1 then ⟨[], [2], []⟩ else if j = 2 then ⟨[], [], [1]⟩ else ⟨[], [], []⟩

/-- Witness for claim C6 at concrete stores: already-connected sends,
already-pending sends in both directions, and accepts with no pending
request, are all informational no-ops. -/
theorem duplicate_connection_noop_witness :
    sendConnectionRequest connectedStore12 1 2 =
      (connectedStore12, .info "Already connected") ∧
    sendConnectionRequest pendingStore12 1 2 =
      (pendingStore12, .info "Connection request already pending") ∧
    sendConnectionRequest revPendingStore12 1 2 =
      (revPendingStore12,
       .info "User has already sent you a connection request") ∧
    respondToRequest connectedStore12 1 2 .accept =
      (connectedStore12, .info "Already connected") ∧
    respondToRequest emptyStore 1 2 .accept =
      (emptyStore, .info "No pending connection request from this user") :=
  ⟨(duplicate_connection_noop connectedStore12 1 2 (by decide)).1 (by decide),
   (duplicate_connection_noop pendingStore12 1 2 (by decide)).2.1
     (by decide) (by decide),
   (duplicate_connection_noop revPendingStore12 1 2 (by decide)).2.2.1
     (by decide) (by decide) (by decide),
   (duplicate_connection_noop connectedStore12 1 2 (by decide)).2.2.2.1
     .accept (by decide) (by decide),
   (duplicate_connection_noop emptyStore 1 2 (by decide)).2.2.2.2 .accept
     (by decide) (by decide)⟩

/-- Counterexample to claim C5: `POST_SHARED` — a member of the spec's
enumerated set — is rejected by the handler, while the handler accepts
`POST_SHARE`, which is not in the spec's set.  The claim's
accepted-iff-in-spec-set equivalence fails in both directions. -/
theorem notification_type_set_cex :
    "POST_SHARED" ∈ specNotificationTypes ∧
    createNotificationHandler "u1" (some "u2") "POST_SHARED" "Title" "Body" =
      .error (400, "Valid notification type required") ∧
    "POST_SHARE" ∉ specNotificationTypes ∧
    exceptOk (createNotificationHandler "u1" (some "u2") "POST_SHARE"
      "Title" "Body") = true :=
  ⟨by decide, rfl, by decide, rfl⟩

/-- Claim C5 (amended): notification creation accepts a type if and only
if it belongs to the handler's `validTypes` set — the spec's set with
`POST_SHARED` replaced by `POST_SHARE` — and the title and message are
non-blank (contain a non-whitespace character); every rejection is a 400
and nothing is persisted. -/
theorem createNotification_accepts_iff (senderId rid ntype title message :
    String) :
    (exceptOk (createNotificationHandler senderId (some rid) ntype title
        message) = true ↔
      (validTypes.contains ntype = true ∧ jsBlank title = false ∧
        jsBlank message = false)) ∧
    (∀ e : Nat × String,
      createNotificationHandler senderId (some rid) ntype title message =
        .error e → e.1 = 400) := by
  constructor
  · unfold createNotificationHandler
    cases hty : validTypes.contains ntype <;>
      cases ht : jsBlank title <;>
        cases hm : jsBlank message <;>
          simp [hty, ht, hm, exceptOk]
  · intro e h
    unfold createNotificationHandler at h
    by_cases hmem : ntype ∈ validTypes <;>
      cases ht : jsBlank title <;>
        cases hm : jsBlank message <;>
          simp [hmem, ht, hm] at h <;> simp [← h]

/-- Witness for claim C5: a well-formed `MESSAGE` notification is
accepted, and a rejected type comes back as a 400. -/
theorem createNotification_accepts_iff_witness :
    exceptOk (createNotificationHandler "u1" (some "u2") "MESSAGE" "Hi"
      "There") = true ∧
    (400, "Valid notification type required").1 = 400 :=
  ⟨((createNotification_accepts_iff "u1" "u2" "MESSAGE" "Hi" "There").1).mpr
     ⟨rfl, rfl, rfl⟩,
   (createNotification_accepts_iff "u1" "u2" "POST_SHARED" "Hi" "There").2
     (400, "Valid notification type required") rfl⟩

/-- Claim C7 fails on the code: mongoose skips the custom `mediaUrl`
validator when the path is `undefined`, so a non-text message with an
absent `mediaUrl` passes schema validation and is persisted — the claim's
own failing scenario, and a contradiction of the validator's own error
message (`Media URL is required for non-text messages`).  The validator
does fire on a set-but-empty (falsy) `mediaUrl`, and a blank content is
rejected by `required`. -/
theorem message_validation_media_bug :
    validateMessageDoc
      { senderId := 1, receiverId := 2, content := "pic",
        messageType := "image", mediaUrl := none, isRead := false,
        readAt := none, isDeleted := false, deletedAt := none,
        deletedBy := [], replyTo := none, reactions := [],
        createdAt := 3 } = true ∧
    validateMessageDoc
      { senderId := 1, receiverId := 2, content := "pic",
        messageType := "image", mediaUrl := some "", isRead := false,
        readAt := none, isDeleted := false, deletedAt := none,
        deletedBy := [], replyTo := none, reactions := [],
        createdAt := 3 } = false ∧
    validateMessageDoc
      { senderId := 1, receiverId := 2, content := "",
        messageType := "text", mediaUrl := none, isRead := false,
        readAt := none, isDeleted := false, deletedAt := none,
        deletedBy := [], replyTo := none, reactions := [],
        createdAt := 3 } = false := by
  decide

/-- Claim C10: every reducer of the client notification slice preserves a
non-negative `unreadCount` — increments are unconditional, but every
decrement is clamped at zero (`Math.max(0, unreadCount - 1)`) and only
applied when the affected notification existed and was unread. -/
theorem unreadCount_nonneg (s : NotificationState)
    (n u : ClientNotification) (nid : String) (now : Nat)
    (h : 0 ≤ s.unreadCount) :
    0 ≤ (addNotificationReducer s n).unreadCount ∧
    0 ≤ (markNotificationAsReadLocalReducer s nid now).unreadCount ∧
    0 ≤ (markAllNotificationsAsReadLocalReducer s now).unreadCount ∧
    0 ≤ (removeNotificationReducer s nid).unreadCount ∧
    0 ≤ (markNotificationAsReadFulfilled s u).unreadCount ∧
    0 ≤ (deleteNotificationFulfilled s nid).unreadCount := by
  refine ⟨?_, ?_, ?_, ?_, ?_, ?_⟩
  · simp only [addNotificationReducer]
    omega
  · unfold markNotificationAsReadLocalReducer
    cases hfind : s.notifications.find? (fun x => x.id == nid) with
    | none => simpa using h
    | some n0 =>
      by_cases hr : n0.isRead = true
      · simpa [hr] using h
      · simp only [hr, Bool.false_eq_true, if_false]
        exact le_max_left 0 _
  · simp [markAllNotificationsAsReadLocalReducer]
  · unfold removeNotificationReducer
    cases hfind : s.notifications.find? (fun x => x.id == nid) with
    | none => simpa using h
    | some n0 =>
      by_cases hr : n0.isRead = true
      · simpa [hr] using h
      · simp only [hr, Bool.false_eq_true, if_false]
        exact le_max_left 0 _
  · unfold markNotificationAsReadFulfilled
    cases hfind : s.notifications.find? (fun x => x.id == u.id) with
    | none => simpa using h
    | some old =>
      by_cases hcond : old.isRead = false ∧ u.isRead = true
      · simp only [hcond, if_pos]
        exact le_max_left 0 _
      · simpa [hcond] using h
  · unfold deleteNotificationFulfilled removeNotificationReducer
    cases hfind : s.notifications.find? (fun x => x.id == nid) with
    | none => simpa using h
    | some n0 =>
      by_cases hr : n0.isRead = true
      · simpa [hr] using h
      · simp only [hr, Bool.false_eq_true, if_false]
        exact le_max_left 0 _

/-- Witness for claim C10: marking the single unread notification read
locally keeps the counter at a non-negative value. -/
theorem unreadCount_nonneg_witness :
    0 ≤ (markNotificationAsReadLocalReducer
      ⟨[⟨"a", false, none⟩], 1⟩ "a" 7).unreadCount :=
  (unreadCount_nonneg ⟨[⟨"a", false, none⟩], 1⟩ ⟨"b", false, none⟩
      ⟨"a", true, some 9⟩ "a" 7 (by decide)).2.1
